import Mathlib

/-!
Verification of the thermodynamic-state update and shock-tube grid
initializer of the CFD_Codes Riemann-solver package.

The Python source is shallowly embedded over exact rationals:
* `ThermodynamicState1D.__init__` and `ThermodynamicState1D.update_states`
  from `riemann_solvers/eos/thermodynamic_state.py`;
* `ShockTube1D.__init__` from `riemann_solvers/simulations/shock_tube_sim_1d.py`.

Fallible Python operations (division by zero, failed `assert`) are embedded
as `Option`-valued functions returning `none` exactly where the Python
raises.
-/

/-- The mutable fields of Python's `ThermodynamicState1D` instances. -/
@[ext]
structure ThermodynamicState1D where
  gamma : ℚ
  p : ℚ
  rho : ℚ
  u : ℚ
  mom : ℚ
  e_kin : ℚ
  e_int : ℚ
  deriving Repr, DecidableEq

/-- Embedding of `ThermodynamicState1D.__init__`.  The constructor body
performs no range validation; its only failure is the division
`pressure / (rho * (gamma - 1))`, which raises `ZeroDivisionError` in Python
exactly when `rho * (gamma - 1) = 0`, modelled here by `none`. -/
def mkThermodynamicState1D (pressure density velocity gamma : ℚ) :
    Option ThermodynamicState1D :=
  if density * (gamma - 1) = 0 then none
  else some
    { gamma := gamma
      p := pressure
      rho := density
      u := velocity
      mom := velocity * density
      e_kin := 1/2 * density * velocity * velocity
      e_int := pressure / (density * (gamma - 1)) }

/-- Embedding of `ThermodynamicState1D.update_states`.  The body has no
guard on the updated density; its only failures are the two divisions by
`self.rho` after `self.rho += density_flux`, raising `ZeroDivisionError`
exactly when the updated density is zero, modelled here by `none`. -/
def ThermodynamicState1D.update_states (s : ThermodynamicState1D)
    (density_flux momentum_flux e_flux : ℚ) : Option ThermodynamicState1D :=
  let e_tot_initial := s.rho * s.e_int + s.e_kin + e_flux
  let rho1 := s.rho + density_flux
  let mom1 := s.mom + momentum_flux
  if rho1 = 0 then none
  else
    let u1 := mom1 / rho1
    let e_kin1 := 1/2 * rho1 * u1 ^ 2
    let e_int1 := (e_tot_initial - e_kin1) / rho1
    some
      { gamma := s.gamma
        p := rho1 * e_int1 * (s.gamma - 1)
        rho := rho1
        u := u1
        mom := mom1
        e_kin := e_kin1
        e_int := e_int1 }

/-- A state whose cached conservative fields are consistent with its
primitive fields, with the positivity ranges of a physically valid state
(`rho > 0`, `p > 0`, `gamma > 1`).  These relations hold for every state
produced by the constructor or by a successful update. -/
def validState1D (s : ThermodynamicState1D) : Prop :=
  0 < s.rho ∧ 0 < s.p ∧ 1 < s.gamma ∧
    s.mom = s.rho * s.u ∧
    s.e_kin = 1/2 * s.rho * s.u * s.u ∧
    s.p = s.rho * s.e_int * (s.gamma - 1)

/-- The flux-calculator strategy tags of `FluxCalculator1D`. -/
inductive FluxCalculator1D where
  | GODUNOV
  | RANDOM_CHOICE
  | HLLC
  | MUSCL
  deriving Repr, DecidableEq

/-- The domain-edge keys of `BoundaryConditionND` used by the 1D setup. -/
inductive BoundaryKey where
  | X_LOW
  | X_HIGH
  deriving Repr, DecidableEq

/-- The ghost-state functions this simulation binds (only the transmissive
condition of `BoundaryCondition1D` is used; its body is external). -/
inductive BoundaryFunction where
  | transmissive
  deriving Repr, DecidableEq

/-- Embedding of `numpy.linspace(start, stop, num)`: `num` evenly spaced
points from `start` to `stop` inclusive. -/
def linspace (start stop : ℚ) (num : ℕ) : List ℚ :=
  (List.range num).map (fun i : ℕ => start + (i : ℚ) * ((stop - start) / ((num : ℚ) - 1)))

/-- The fixed mesh `self.x = np.linspace(0.005, 0.995, 100)`. -/
def shockTubeX : List ℚ := linspace (1/200) (199/200) 100

/-- The cell width `self.dx = self.x[0] * 2`. -/
def shockTubeDx : ℚ := shockTubeX.headI * 2

/-- The fields of a constructed `ShockTube1D` simulation. -/
structure ShockTube1D where
  x : List ℚ
  dx : ℚ
  final_time : ℚ
  CFL : ℚ
  flux_calculator : FluxCalculator1D
  densities : List ℚ
  pressures : List ℚ
  vel_x : List ℚ
  internal_energies : List ℚ
  gamma : ℚ
  boundary_functions : BoundaryKey → BoundaryFunction
  is_initialised : Bool

/-- Embedding of `ShockTube1D.__init__`.  The leading `assert` statements
check `0 < membrane_location < 1` and `0 < CFL < 1` (and types only —
`final_time` is never range-checked); a failed `assert` raises before any
attribute is assigned, modelled by `none`.  On success every field is
populated and `is_initialised` is set to `true` last. -/
def mkShockTube1D (left_state right_state : ThermodynamicState1D)
    (membrane_location final_time CFL : ℚ)
    (flux_calculator : FluxCalculator1D) : Option ShockTube1D :=
  if 0 < membrane_location ∧ membrane_location < 1 ∧ 0 < CFL ∧ CFL < 1 then
    some
      { x := shockTubeX
        dx := shockTubeDx
        final_time := final_time
        CFL := CFL
        flux_calculator := flux_calculator
        densities := shockTubeX.map
          (fun xl => if xl < membrane_location then left_state.rho else right_state.rho)
        pressures := shockTubeX.map
          (fun xl => if xl < membrane_location then left_state.p else right_state.p)
        vel_x := shockTubeX.map
          (fun xl => if xl < membrane_location then left_state.u else right_state.u)
        internal_energies := shockTubeX.map
          (fun xl => if xl < membrane_location then left_state.e_int else right_state.e_int)
        gamma := left_state.gamma
        boundary_functions := fun _ => BoundaryFunction.transmissive
        is_initialised := true }
  else none

/-! ### Helper lemmas -/

lemma mkThermodynamicState1D_eq (p rho u g : ℚ) (h : rho * (g - 1) ≠ 0) :
    mkThermodynamicState1D p rho u g = some
      { gamma := g
        p := p
        rho := rho
        u := u
        mom := u * rho
        e_kin := 1/2 * rho * u * u
        e_int := p / (rho * (g - 1)) } := by
  unfold mkThermodynamicState1D
  rw [if_neg h]

lemma mkThermodynamicState1D_none (p rho u g : ℚ) (h : rho * (g - 1) = 0) :
    mkThermodynamicState1D p rho u g = none := by
  unfold mkThermodynamicState1D
  rw [if_pos h]

lemma update_states_eq (s : ThermodynamicState1D) (df mf ef : ℚ)
    (h : s.rho + df ≠ 0) :
    s.update_states df mf ef = some
      { gamma := s.gamma
        p := (s.rho + df) *
          ((s.rho * s.e_int + s.e_kin + ef -
              1/2 * (s.rho + df) * ((s.mom + mf) / (s.rho + df)) ^ 2) / (s.rho + df)) *
          (s.gamma - 1)
        rho := s.rho + df
        u := (s.mom + mf) / (s.rho + df)
        mom := s.mom + mf
        e_kin := 1/2 * (s.rho + df) * ((s.mom + mf) / (s.rho + df)) ^ 2
        e_int := (s.rho * s.e_int + s.e_kin + ef -
            1/2 * (s.rho + df) * ((s.mom + mf) / (s.rho + df)) ^ 2) / (s.rho + df) } := by
  simp only [ThermodynamicState1D.update_states]
  rw [if_neg h]

lemma update_states_none (s : ThermodynamicState1D) (df mf ef : ℚ)
    (h : s.rho + df = 0) :
    s.update_states df mf ef = none := by
  simp only [ThermodynamicState1D.update_states]
  rw [if_pos h]

lemma shockTubeX_get (i : ℕ) (h : i < 100) :
    shockTubeX[i]? = some ((1 : ℚ)/200 + (i : ℚ) * (1/100)) := by
  unfold shockTubeX linspace
  rw [List.getElem?_map, List.getElem?_range h]
  norm_num

lemma shockTubeX_headI : shockTubeX.headI = 1/200 := by
  unfold shockTubeX linspace
  rw [show (100 : ℕ) = 99 + 1 from rfl, List.range_succ_eq_map]
  simp

lemma shockTubeDx_val : shockTubeDx = 1/100 := by
  unfold shockTubeDx
  rw [shockTubeX_headI]
  norm_num

/-! ### C3: constructor validation -/

/-- C3 counterexample: constructing a `ThermodynamicState1D` with
`pressure = -1.0` succeeds and creates an instance, so construction does not
fail with `InvalidStateError` on non-positive pressure. -/
theorem mk_state_negative_pressure_accepted :
    (mkThermodynamicState1D (-1) 1 0 (7/5)).isSome = true := by
  norm_num [mkThermodynamicState1D]

/-- C3 (amended): the constructor performs no validation of density,
pressure or gamma.  Construction succeeds for every input with
`density * (gamma - 1) ≠ 0` — in particular for `pressure = -1.0` — and
fails (with `ZeroDivisionError`, not `InvalidStateError`) exactly when
`density * (gamma - 1) = 0`. -/
theorem mk_state_no_validation (p rho u g : ℚ) :
    (rho * (g - 1) ≠ 0 → (mkThermodynamicState1D p rho u g).isSome = true) ∧
    (rho * (g - 1) = 0 → mkThermodynamicState1D p rho u g = none) := by
  constructor
  · intro h
    rw [mkThermodynamicState1D_eq p rho u g h]
    rfl
  · intro h
    exact mkThermodynamicState1D_none p rho u g h

/-- Witness for C3's amended theorem at concrete inputs: pressure `-1`
with positive density succeeds; zero density fails. -/
theorem mk_state_no_validation_witness :
    (mkThermodynamicState1D (-1) 1 0 3).isSome = true ∧
    mkThermodynamicState1D 1 0 0 3 = none :=
  ⟨(mk_state_no_validation (-1) 1 0 3).1 (by norm_num),
   (mk_state_no_validation 1 0 0 3).2 (by norm_num)⟩

/-! ### C4: update density guard -/

/-- C4 counterexample: an update driving the density to `-1` succeeds and
produces a state with `rho = -1`, rather than failing with
`InvalidStateError`. -/
theorem update_states_negative_density_accepted :
    ((({ gamma := 7/5, p := 1, rho := 1, u := 0, mom := 0, e_kin := 0,
          e_int := 5/2 } : ThermodynamicState1D).update_states
        (-2) 0 0).map ThermodynamicState1D.rho) = some (-1) := by
  norm_num [ThermodynamicState1D.update_states]

/-- C4 (amended): `update_states` has no guard on the updated density.
For every state and flux triple with `rho + density_flux < 0` it succeeds,
silently producing a state with the negative density `rho + density_flux`;
it fails only when `rho + density_flux = 0` (a `ZeroDivisionError`). -/
theorem update_states_no_density_guard (s : ThermodynamicState1D)
    (df mf ef : ℚ) (h : s.rho + df < 0) :
    ∃ s', s.update_states df mf ef = some s' ∧
      s'.rho = s.rho + df ∧ s'.rho < 0 := by
  refine ⟨_, update_states_eq s df mf ef (ne_of_lt h), rfl, h⟩

/-- Witness for C4's amended theorem at a concrete input. -/
theorem update_states_no_density_guard_witness :
    ∃ s', ({ gamma := 7/5, p := 1, rho := 1, u := 0, mom := 0, e_kin := 0,
             e_int := 5/2 } : ThermodynamicState1D).update_states (-2) 0 0 = some s' ∧
      s'.rho = 1 + (-2) ∧ s'.rho < 0 :=
  update_states_no_density_guard _ (-2) 0 0 (by norm_num)

/-! ### C9: gamma is never modified by an update -/

/-- C9: `update_states` assigns only `rho`, `mom`, `u`, `e_kin`, `e_int`
and `p`; the remaining field `gamma` is preserved by every successful
update, so the adiabatic index a state is constructed with is kept for the
state's entire lifetime. -/
theorem update_states_preserves_gamma (s : ThermodynamicState1D)
    (df mf ef : ℚ) (s' : ThermodynamicState1D)
    (h : s.update_states df mf ef = some s') : s'.gamma = s.gamma := by
  by_cases hz : s.rho + df = 0
  · rw [update_states_none s df mf ef hz] at h
    exact Option.noConfusion h
  · rw [update_states_eq s df mf ef hz] at h
    injection h with h'
    rw [← h']

/-- Witness for C9 at a concrete input. -/
theorem update_states_preserves_gamma_witness :
    ∃ s', ({ gamma := 7/5, p := 1, rho := 1, u := 0, mom := 0, e_kin := 0,
             e_int := 5/2 } : ThermodynamicState1D).update_states 1 1 1 = some s' ∧
      s'.gamma = 7/5 := by
  have hs := update_states_eq
    { gamma := 7/5, p := 1, rho := 1, u := 0, mom := 0, e_kin := 0, e_int := 5/2 }
    1 1 1 (by norm_num)
  exact ⟨_, hs, update_states_preserves_gamma _ 1 1 1 _ hs⟩

/-! ### C10: totality of the update away from zero updated density -/

/-- C10: `update_states` has no guard on the updated density; its only
partial operations are the two divisions by the updated density, so it
succeeds for every input with `rho + density_flux ≠ 0` (including negative
updated densities) and fails exactly when `rho + density_flux = 0`. -/
theorem update_states_total_on_nonzero_density (s : ThermodynamicState1D)
    (df mf ef : ℚ) :
    (s.rho + df ≠ 0 → (s.update_states df mf ef).isSome = true) ∧
    (s.rho + df = 0 → s.update_states df mf ef = none) := by
  constructor
  · intro h
    rw [update_states_eq s df mf ef h]
    rfl
  · intro h
    exact update_states_none s df mf ef h

/-- Witness for C10 at concrete inputs: an update to the negative density
`1 - 3 = -2` succeeds; an update to density `0` fails. -/
theorem update_states_total_on_nonzero_density_witness :
    (({ gamma := 7/5, p := 1, rho := 1, u := 0, mom := 0, e_kin := 0,
        e_int := 5/2 } : ThermodynamicState1D).update_states
      (-3) 0 0).isSome = true ∧
    ({ gamma := 7/5, p := 1, rho := 1, u := 0, mom := 0, e_kin := 0,
        e_int := 5/2 } : ThermodynamicState1D).update_states (-1) 0 0 = none :=
  ⟨(update_states_total_on_nonzero_density _ (-3) 0 0).1 (by norm_num),
   (update_states_total_on_nonzero_density _ (-1) 0 0).2 (by norm_num)⟩

lemma update_states_null_flux_fields (s : ThermodynamicState1D) (ef : ℚ)
    (hrho : s.rho ≠ 0) (hmom : s.mom = s.rho * s.u)
    (hek : s.e_kin = 1/2 * s.rho * s.u * s.u) :
    s.update_states 0 0 ef = some
      { gamma := s.gamma
        p := s.rho * s.e_int * (s.gamma - 1) + ef * (s.gamma - 1)
        rho := s.rho
        u := s.u
        mom := s.mom
        e_kin := s.e_kin
        e_int := s.e_int + ef / s.rho } := by
  have hne : s.rho + 0 ≠ 0 := by rwa [add_zero]
  rw [update_states_eq s 0 0 ef hne]
  congr 1
  ext
  · rfl
  · show (s.rho + 0) *
        ((s.rho * s.e_int + s.e_kin + ef -
            1/2 * (s.rho + 0) * ((s.mom + 0) / (s.rho + 0)) ^ 2) / (s.rho + 0)) *
        (s.gamma - 1) = s.rho * s.e_int * (s.gamma - 1) + ef * (s.gamma - 1)
    rw [add_zero, add_zero, hmom, hek]
    field_simp
    ring
  · show s.rho + 0 = s.rho
    rw [add_zero]
  · show (s.mom + 0) / (s.rho + 0) = s.u
    rw [add_zero, add_zero, hmom, mul_comm, mul_div_assoc, div_self hrho, mul_one]
  · show s.mom + 0 = s.mom
    rw [add_zero]
  · show 1/2 * (s.rho + 0) * ((s.mom + 0) / (s.rho + 0)) ^ 2 = s.e_kin
    rw [add_zero, add_zero, hmom, hek]
    field_simp
    ring
  · show (s.rho * s.e_int + s.e_kin + ef -
        1/2 * (s.rho + 0) * ((s.mom + 0) / (s.rho + 0)) ^ 2) / (s.rho + 0) =
      s.e_int + ef / s.rho
    rw [add_zero, add_zero, hmom, hek]
    field_simp
    ring

/-! ### C1: update order and exact energy conservation -/

/-- C1: for every valid state and fluxes with positive updated density,
`update_states` computes, in order: the pre-update total energy
`e_tot0 = rho * e_int + e_kin + e_flux`; the new density `rho + density_flux`
and momentum `mom + momentum_flux`; the new velocity `mom / rho`; the new
kinetic energy from the new velocity and density; the new internal energy
`(e_tot0 - e_kin_new) / rho_new`; and the new pressure
`rho * e_int * (gamma - 1)` — so the post-update total energy
`rho * e_int + e_kin` equals the pre-update total energy plus `e_flux`
exactly. -/
theorem update_states_order_and_energy_conservation
    (s : ThermodynamicState1D) (df mf ef : ℚ)
    (hrho : 0 < s.rho) (hp : 0 < s.p) (hg : 1 < s.gamma)
    (hpos : 0 < s.rho + df) :
    ∃ s', s.update_states df mf ef = some s' ∧
      s'.rho = s.rho + df ∧
      s'.mom = s.mom + mf ∧
      s'.u = s'.mom / s'.rho ∧
      s'.e_kin = 1/2 * s'.rho * s'.u ^ 2 ∧
      s'.e_int = (s.rho * s.e_int + s.e_kin + ef - s'.e_kin) / s'.rho ∧
      s'.p = s'.rho * s'.e_int * (s.gamma - 1) ∧
      s'.rho * s'.e_int + s'.e_kin = s.rho * s.e_int + s.e_kin + ef := by
  have hne : s.rho + df ≠ 0 := ne_of_gt hpos
  refine ⟨_, update_states_eq s df mf ef hne, rfl, rfl, rfl, rfl, rfl, rfl, ?_⟩
  show (s.rho + df) *
      ((s.rho * s.e_int + s.e_kin + ef -
          1/2 * (s.rho + df) * ((s.mom + mf) / (s.rho + df)) ^ 2) / (s.rho + df)) +
      1/2 * (s.rho + df) * ((s.mom + mf) / (s.rho + df)) ^ 2 =
    s.rho * s.e_int + s.e_kin + ef
  field_simp
  ring

/-- Witness for C1 at a concrete input. -/
theorem update_states_order_and_energy_conservation_witness :
    ∃ s', ({ gamma := 2, p := 2, rho := 1, u := 1, mom := 1, e_kin := 1/2,
             e_int := 1 } : ThermodynamicState1D).update_states 1 1 1 = some s' ∧
      s'.rho = 1 + 1 ∧
      s'.mom = 1 + 1 ∧
      s'.u = s'.mom / s'.rho ∧
      s'.e_kin = 1/2 * s'.rho * s'.u ^ 2 ∧
      s'.e_int = (1 * 1 + 1/2 + 1 - s'.e_kin) / s'.rho ∧
      s'.p = s'.rho * s'.e_int * (2 - 1) ∧
      s'.rho * s'.e_int + s'.e_kin = 1 * 1 + 1/2 + 1 :=
  update_states_order_and_energy_conservation _ 1 1 1
    (by norm_num) (by norm_num) (by norm_num) (by norm_num)

/-! ### C2: the consistency relations are an invariant -/

/-- C2: the defining consistency relations `p = rho * e_int * (gamma - 1)`
and `mom = rho * u` hold for every state produced by construction and for
every state produced by an `update_states` call whose updated density is
nonzero. -/
theorem state_consistency_invariant :
    (∀ p rho u g s, mkThermodynamicState1D p rho u g = some s →
        s.p = s.rho * s.e_int * (s.gamma - 1) ∧ s.mom = s.rho * s.u) ∧
    (∀ (s s' : ThermodynamicState1D) (df mf ef : ℚ),
        s.update_states df mf ef = some s' →
        s'.p = s'.rho * s'.e_int * (s'.gamma - 1) ∧ s'.mom = s'.rho * s'.u) := by
  constructor
  · intro p rho u g s h
    by_cases hz : rho * (g - 1) = 0
    · rw [mkThermodynamicState1D_none p rho u g hz] at h
      exact Option.noConfusion h
    · rw [mkThermodynamicState1D_eq p rho u g hz] at h
      injection h with h'
      subst h'
      constructor
      · show p = rho * (p / (rho * (g - 1))) * (g - 1)
        field_simp
        ring
      · show u * rho = rho * u
        ring
  · intro s s' df mf ef h
    by_cases hz : s.rho + df = 0
    · rw [update_states_none s df mf ef hz] at h
      exact Option.noConfusion h
    · rw [update_states_eq s df mf ef hz] at h
      injection h with h'
      subst h'
      refine ⟨rfl, ?_⟩
      show s.mom + mf = (s.rho + df) * ((s.mom + mf) / (s.rho + df))
      field_simp

/-- Witness for C2 at concrete inputs: one construction and one update. -/
theorem state_consistency_invariant_witness :
    (∃ s, mkThermodynamicState1D 2 1 3 2 = some s ∧
      s.p = s.rho * s.e_int * (s.gamma - 1) ∧ s.mom = s.rho * s.u) ∧
    (∃ s', ({ gamma := 2, p := 2, rho := 1, u := 3, mom := 3, e_kin := 9/2,
              e_int := 2 } : ThermodynamicState1D).update_states 1 1 1 = some s' ∧
      s'.p = s'.rho * s'.e_int * (s'.gamma - 1) ∧ s'.mom = s'.rho * s'.u) := by
  constructor
  · have hmk := mkThermodynamicState1D_eq 2 1 3 2 (by norm_num)
    exact ⟨_, hmk, state_consistency_invariant.1 2 1 3 2 _ hmk⟩
  · have hup := update_states_eq
      { gamma := 2, p := 2, rho := 1, u := 3, mom := 3, e_kin := 9/2, e_int := 2 }
      1 1 1 (by norm_num)
    exact ⟨_, hup, state_consistency_invariant.2 _ _ 1 1 1 hup⟩

/-! ### C5: a null mass/momentum-flux update -/

/-- C5: for every valid state, an update with zero density and momentum
flux leaves `rho`, `mom` and `u` unchanged, leaves `e_kin` unchanged,
increases total energy `rho * e_int + e_kin` by exactly `e_flux` — the
whole increment appearing in `e_int` (which grows by `e_flux / rho`) with
`p` growing by `e_flux * (gamma - 1)` — and with `e_flux = 0` the state is
completely unchanged. -/
theorem update_states_null_mass_momentum_flux (s : ThermodynamicState1D)
    (ef : ℚ) (hv : validState1D s) :
    ∃ s', s.update_states 0 0 ef = some s' ∧
      s'.rho = s.rho ∧ s'.mom = s.mom ∧ s'.u = s.u ∧ s'.e_kin = s.e_kin ∧
      s'.rho * s'.e_int + s'.e_kin = s.rho * s.e_int + s.e_kin + ef ∧
      s'.e_int = s.e_int + ef / s.rho ∧
      s'.p = s.p + ef * (s.gamma - 1) ∧
      (ef = 0 → s' = s) := by
  obtain ⟨h1, h2, h3, h4, h5, h6⟩ := hv
  have hrne : s.rho ≠ 0 := ne_of_gt h1
  have hup := update_states_null_flux_fields s ef hrne h4 h5
  refine ⟨_, hup, rfl, rfl, rfl, rfl, ?_, rfl, ?_, ?_⟩
  · show s.rho * (s.e_int + ef / s.rho) + s.e_kin = s.rho * s.e_int + s.e_kin + ef
    field_simp
    ring
  · show s.rho * s.e_int * (s.gamma - 1) + ef * (s.gamma - 1) =
      s.p + ef * (s.gamma - 1)
    rw [← h6]
  · intro h0
    subst h0
    ext
    · rfl
    · show s.rho * s.e_int * (s.gamma - 1) + 0 * (s.gamma - 1) = s.p
      rw [h6]
      ring
    · rfl
    · rfl
    · rfl
    · rfl
    · show s.e_int + 0 / s.rho = s.e_int
      simp

/-- Witness for C5: the concrete scenario
`(p=1, rho=1, u=0, gamma=1.4)` updated with `(0, 0, 0.1)` — `rho` and `u`
unchanged, `e_int` up by exactly `1/10`, `p` up by exactly `1/25 = 0.04` —
together with the null update `(0, 0, 0)` leaving the state unchanged. -/
theorem update_states_null_mass_momentum_flux_witness :
    (∃ s', ({ gamma := 7/5, p := 1, rho := 1, u := 0, mom := 0, e_kin := 0,
              e_int := 5/2 } : ThermodynamicState1D).update_states 0 0 (1/10) =
        some s' ∧
      s'.rho = 1 ∧ s'.u = 0 ∧ s'.e_int = 5/2 + (1/10) / 1 ∧
      s'.p = 1 + 1/10 * (7/5 - 1)) ∧
    (∃ s', ({ gamma := 7/5, p := 1, rho := 1, u := 0, mom := 0, e_kin := 0,
              e_int := 5/2 } : ThermodynamicState1D).update_states 0 0 0 =
        some s' ∧
      s' = { gamma := 7/5, p := 1, rho := 1, u := 0, mom := 0, e_kin := 0,
             e_int := 5/2 }) := by
  constructor
  · obtain ⟨s', hs', hrho, _, hu, _, _, hei, hp, _⟩ :=
      update_states_null_mass_momentum_flux
        { gamma := 7/5, p := 1, rho := 1, u := 0, mom := 0, e_kin := 0,
          e_int := 5/2 } (1/10) (by norm_num [validState1D])
    exact ⟨s', hs', hrho, hu, hei, hp⟩
  · obtain ⟨s', hs', _, _, _, _, _, _, _, hnull⟩ :=
      update_states_null_mass_momentum_flux
        { gamma := 7/5, p := 1, rho := 1, u := 0, mom := 0, e_kin := 0,
          e_int := 5/2 } 0 (by norm_num [validState1D])
    exact ⟨s', hs', hnull rfl⟩

lemma mkShockTube1D_eq (L R : ThermodynamicState1D) (m ft cfl : ℚ)
    (fc : FluxCalculator1D) (h : 0 < m ∧ m < 1 ∧ 0 < cfl ∧ cfl < 1) :
    mkShockTube1D L R m ft cfl fc = some
      { x := shockTubeX
        dx := shockTubeDx
        final_time := ft
        CFL := cfl
        flux_calculator := fc
        densities := shockTubeX.map (fun xl => if xl < m then L.rho else R.rho)
        pressures := shockTubeX.map (fun xl => if xl < m then L.p else R.p)
        vel_x := shockTubeX.map (fun xl => if xl < m then L.u else R.u)
        internal_energies :=
          shockTubeX.map (fun xl => if xl < m then L.e_int else R.e_int)
        gamma := L.gamma
        boundary_functions := fun _ => BoundaryFunction.transmissive
        is_initialised := true } := by
  unfold mkShockTube1D
  rw [if_pos h]

lemma mkShockTube1D_none (L R : ThermodynamicState1D) (m ft cfl : ℚ)
    (fc : FluxCalculator1D) (h : ¬ (0 < m ∧ m < 1 ∧ 0 < cfl ∧ cfl < 1)) :
    mkShockTube1D L R m ft cfl fc = none := by
  unfold mkShockTube1D
  rw [if_neg h]

/-! ### C6: the uniform mesh -/

/-- C6: the grid holds exactly 100 cell-center coordinates; the cell width
`dx` is derived as twice the first center's coordinate and equals `1/100`;
the first center is at `dx/2 = 0.005`, the last at `1 - dx/2 = 0.995`, and
consecutive centers differ by exactly `dx`. -/
theorem shockTube_grid_spec :
    shockTubeX.length = 100 ∧
    shockTubeDx = shockTubeX.headI * 2 ∧
    shockTubeDx = 1/100 ∧
    shockTubeX[0]? = some (shockTubeDx / 2) ∧
    shockTubeX[99]? = some (1 - shockTubeDx / 2) ∧
    (∀ i : ℕ, i + 1 < 100 →
      ∃ a b, shockTubeX[i]? = some a ∧ shockTubeX[i + 1]? = some b ∧
        b - a = shockTubeDx) := by
  refine ⟨?_, rfl, shockTubeDx_val, ?_, ?_, ?_⟩
  · unfold shockTubeX linspace
    simp
  · rw [shockTubeX_get 0 (by norm_num), shockTubeDx_val]
    norm_num
  · rw [shockTubeX_get 99 (by norm_num), shockTubeDx_val]
    norm_num
  · intro i hi
    refine ⟨_, _, shockTubeX_get i (by omega), shockTubeX_get (i + 1) hi, ?_⟩
    rw [shockTubeDx_val]
    push_cast
    ring

/-- Witness for C6's bounded-index conjunct at the first pair of cells. -/
theorem shockTube_grid_spec_witness :
    ∃ a b, shockTubeX[0]? = some a ∧ shockTubeX[0 + 1]? = some b ∧
      b - a = shockTubeDx :=
  shockTube_grid_spec.2.2.2.2.2 0 (by norm_num)

/-! ### C7: the piecewise-constant initial condition -/

/-- C7: in a successfully constructed simulation, every cell whose center
is strictly left of the membrane carries `left_state`'s density, pressure,
velocity and internal energy, every other cell (center `>=` membrane,
including equality) carries `right_state`'s, and the shared `gamma` is
taken from `left_state.gamma`. -/
theorem shockTube_initial_condition
    (L R : ThermodynamicState1D) (m ft cfl : ℚ) (fc : FluxCalculator1D)
    (sim : ShockTube1D) (h : mkShockTube1D L R m ft cfl fc = some sim) :
    sim.gamma = L.gamma ∧ sim.x = shockTubeX ∧
    (∀ (i : ℕ) (xi : ℚ), sim.x[i]? = some xi →
      (xi < m → sim.densities[i]? = some L.rho ∧ sim.pressures[i]? = some L.p ∧
        sim.vel_x[i]? = some L.u ∧ sim.internal_energies[i]? = some L.e_int) ∧
      (¬ xi < m → sim.densities[i]? = some R.rho ∧ sim.pressures[i]? = some R.p ∧
        sim.vel_x[i]? = some R.u ∧ sim.internal_energies[i]? = some R.e_int)) := by
  by_cases hc : 0 < m ∧ m < 1 ∧ 0 < cfl ∧ cfl < 1
  · rw [mkShockTube1D_eq L R m ft cfl fc hc] at h
    injection h with h'
    subst h'
    refine ⟨rfl, rfl, ?_⟩
    intro i xi hx
    simp only at hx
    constructor
    · intro hm
      refine ⟨?_, ?_, ?_, ?_⟩ <;> simp [List.getElem?_map, hx, hm]
    · intro hm
      refine ⟨?_, ?_, ?_, ?_⟩ <;> simp [List.getElem?_map, hx, hm]
  · rw [mkShockTube1D_none L R m ft cfl fc hc] at h
    exact Option.noConfusion h

/-- Witness for C7: the Sod problem
`left = (p=1, rho=1, u=3/4, gamma=7/5)`, `right = (p=1/10, rho=1/8, u=0,
gamma=7/5)`, membrane at `3/10` — cell 0 (center `1/200`) carries the left
density and pressure, cell 99 (center `199/200`) the right ones, and the
shared gamma is `7/5`. -/
theorem shockTube_initial_condition_witness :
    ∃ sim, mkShockTube1D
        { gamma := 7/5, p := 1, rho := 1, u := 3/4, mom := 3/4, e_kin := 9/32,
          e_int := 5/2 }
        { gamma := 7/5, p := 1/10, rho := 1/8, u := 0, mom := 0, e_kin := 0,
          e_int := 2 }
        (3/10) (1/4) (9/20) FluxCalculator1D.GODUNOV = some sim ∧
      sim.gamma = 7/5 ∧
      sim.densities[0]? = some 1 ∧ sim.pressures[0]? = some 1 ∧
      sim.densities[99]? = some (1/8) ∧ sim.pressures[99]? = some (1/10) := by
  have hsim := mkShockTube1D_eq
    { gamma := 7/5, p := 1, rho := 1, u := 3/4, mom := 3/4, e_kin := 9/32,
      e_int := 5/2 }
    { gamma := 7/5, p := 1/10, rho := 1/8, u := 0, mom := 0, e_kin := 0,
      e_int := 2 }
    (3/10) (1/4) (9/20) FluxCalculator1D.GODUNOV (by norm_num)
  obtain ⟨hg, hx, hcell⟩ :=
    shockTube_initial_condition _ _ (3/10) (1/4) (9/20) _ _ hsim
  have h0 := (hcell 0 (1/200 + (0 : ℕ) * (1/100))
    (by rw [hx]; exact shockTubeX_get 0 (by norm_num))).1 (by norm_num)
  have h99 := (hcell 99 (1/200 + (99 : ℕ) * (1/100))
    (by rw [hx]; exact shockTubeX_get 99 (by norm_num))).2 (by norm_num)
  exact ⟨_, hsim, hg, h0.1, h0.2.1, h99.1, h99.2.1⟩

/-! ### C8: constructor validation of the simulation -/

/-- C8 counterexample: construction with `final_time = -1 <= 0` is not
rejected — it succeeds and yields a fully initialised instance. -/
theorem shockTube_negative_final_time_accepted :
    ((mkShockTube1D
        { gamma := 7/5, p := 1, rho := 1, u := 0, mom := 0, e_kin := 0,
          e_int := 5/2 }
        { gamma := 7/5, p := 1/10, rho := 1/8, u := 0, mom := 0, e_kin := 0,
          e_int := 2 }
        (1/2) (-1) (9/20) FluxCalculator1D.GODUNOV).map
      ShockTube1D.is_initialised) = some true := by
  rw [mkShockTube1D_eq _ _ (1/2) (-1) (9/20) FluxCalculator1D.GODUNOV
    (by norm_num)]
  rfl

/-- C8 (amended): the constructor rejects `membrane_location` outside
`(0,1)` and `CFL` outside `(0,1)`, failing before any state is installed
(no partial instance); `final_time` is not range-validated.  Every
successfully constructed instance has `is_initialised = true`. -/
theorem shockTube_construction_validation
    (L R : ThermodynamicState1D) (m ft cfl : ℚ) (fc : FluxCalculator1D) :
    ((m ≤ 0 ∨ 1 ≤ m ∨ cfl ≤ 0 ∨ 1 ≤ cfl) →
      mkShockTube1D L R m ft cfl fc = none) ∧
    (∀ sim, mkShockTube1D L R m ft cfl fc = some sim →
      sim.is_initialised = true) := by
  constructor
  · intro hbad
    apply mkShockTube1D_none
    rintro ⟨h1, h2, h3, h4⟩
    rcases hbad with hb | hb | hb | hb <;> linarith
  · intro sim h
    by_cases hc : 0 < m ∧ m < 1 ∧ 0 < cfl ∧ cfl < 1
    · rw [mkShockTube1D_eq L R m ft cfl fc hc] at h
      injection h with h'
      subst h'
      rfl
    · rw [mkShockTube1D_none L R m ft cfl fc hc] at h
      exact Option.noConfusion h

/-- Witness for C8's amended theorem: a membrane location of `2` is
rejected, and a valid construction (even with a negative `final_time`)
comes out with `is_initialised = true`. -/
theorem shockTube_construction_validation_witness :
    mkShockTube1D
      { gamma := 7/5, p := 1, rho := 1, u := 0, mom := 0, e_kin := 0,
        e_int := 5/2 }
      { gamma := 7/5, p := 1/10, rho := 1/8, u := 0, mom := 0, e_kin := 0,
        e_int := 2 }
      2 1 (1/2) FluxCalculator1D.GODUNOV = none ∧
    (∃ sim, mkShockTube1D
        { gamma := 7/5, p := 1, rho := 1, u := 0, mom := 0, e_kin := 0,
          e_int := 5/2 }
        { gamma := 7/5, p := 1/10, rho := 1/8, u := 0, mom := 0, e_kin := 0,
          e_int := 2 }
        (1/2) (-1) (1/2) FluxCalculator1D.GODUNOV = some sim ∧
      sim.is_initialised = true) := by
  constructor
  · exact (shockTube_construction_validation _ _ 2 1 (1/2)
      FluxCalculator1D.GODUNOV).1 (by norm_num)
  · have hsim := mkShockTube1D_eq
      { gamma := 7/5, p := 1, rho := 1, u := 0, mom := 0, e_kin := 0,
        e_int := 5/2 }
      { gamma := 7/5, p := 1/10, rho := 1/8, u := 0, mom := 0, e_kin := 0,
        e_int := 2 }
      (1/2) (-1) (1/2) FluxCalculator1D.GODUNOV (by norm_num)
    exact ⟨_, hsim, (shockTube_construction_validation _ _ (1/2) (-1) (1/2)
      FluxCalculator1D.GODUNOV).2 _ hsim⟩
